import Mathlib

/-!
# dl.netreceive~ : shallow embedding of `dl.netreceive~.c`

The external object is embedded as pure functions over an explicit object
state.  Every function of the source returns a `Run`: the sequence of calls it
makes into the C library, libuv, pthread and the Max SDK (its effects), and the
way it ends (`done` with a value, `aborted` by a failed `assert`, or `fault`
for an invalid memory access, whose behaviour C leaves undefined).

Conventions
* A `double` is its IEEE-754 binary64 bit pattern (a `Nat`).  The source only
  copies samples, it never computes with them, so 1.0 is `0x3FF0000000000000`.
* `long` values are `Int`; `size_t` is 64 bits wide, `int` is 32 bits wide.
* A heap block is the list of the doubles it holds, at an address; address 0
  is NULL.  What `malloc` returns is supplied by the caller of the model, so
  an allocation can fail.
* Return codes of libuv calls are supplied by the caller of the model.
-/

namespace DlNetReceive

/-! ## Constants of the source -/

def DEFAULT_AUDIO_CHANNELS : Int := 1
def MAXIMUM_AUDIO_CHANNELS : Int := 32
def DEFAULT_AUDIO_BUFFER_SIZE : Nat := 1024
def DEFAULT_UDP_PACKT_SIZE : Nat := 8192
def DEFAULT_IP_ADDRESS : String := "0.0.0.0"
def DEFAULT_PORT : String := "8000"

/-! ## Data model -/

/-- One `double`, as its IEEE-754 binary64 bit pattern. -/
abbrev t_double := Nat

/-- The value of a pointer to an event loop. -/
inductive LoopPtr where
  | null
  | event_loop_struct
  | wild (addr : Nat)
  deriving DecidableEq, Repr

/-- An IPv4 socket address as `uv_ip4_addr` fills it in. -/
structure sockaddr_in where
  ip : String
  port : Nat
  deriving DecidableEq, Repr

/-- A heap block of doubles together with its address. -/
structure Block where
  addr : Nat
  cells : List t_double
  deriving DecidableEq, Repr

/-- The libuv buffer descriptor: `base` points to a block, `len` is in bytes. -/
structure uv_buf_t where
  base : Block
  len : Nat
  deriving DecidableEq, Repr

/-- The object state `t_dlnetreceive`.  The libuv handle, the send request and
the thread id are owned by the libraries and appear only in the effects. -/
structure t_dlnetreceive where
  d_offset : t_double
  d_channels : Int
  d_ipaddr : String
  d_portno : String
  loop : LoopPtr
  recv_addr : sockaddr_in
  buffer : uv_buf_t
  vs : Int
  event_loop_ptr : LoopPtr
  deriving DecidableEq, Repr

/-- An argument of a `post` call: an integer, a string, a double, the bytes at
an address read as a C string, and the name and the message libuv has for an
error code. -/
inductive PostArg where
  | int (v : Int)
  | str (s : String)
  | dbl (bits : t_double)
  | mem (addr : Nat)
  | err_name (code : Int)
  | strerror (code : Int)
  deriving DecidableEq, Repr

/-- The calls the source makes into its libraries.  The last two,
`pthread_mutex_lock` and `pthread_join`, are calls the source never makes;
they are listed so that their absence from a run can be stated. -/
inductive Event where
  | post (fmt : String) (args : List PostArg)
  | dsp_setup (inlets : Int)
  | outlet_new (kind : String)
  | dsp_add64
  | malloc (bytes : Nat)
  | free (addr : Nat)
  | memcpy (dst : Nat) (src : Nat) (bytes : Nat)
  | uv_loop_init
  | uv_udp_init (loop : LoopPtr)
  | uv_ip4_addr (ip : String) (port : Nat)
  | uv_udp_bind (addr : sockaddr_in) (flags : Nat)
  | uv_udp_recv_start
  | uv_udp_recv_stop
  | uv_close
  | uv_ip4_name (addr : sockaddr_in)
  | uv_run (loop : LoopPtr)
  | pthread_create
  | pthread_mutex_lock
  | pthread_join
  deriving DecidableEq, Repr

/-- The allocations among the calls. -/
def Event.isAlloc : Event → Bool
  | .malloc _ => true
  | _ => false

/-- The calls that take a lock. -/
def Event.isLock : Event → Bool
  | .pthread_mutex_lock => true
  | _ => false

/-- The calls that do input or output or wait: logging, event loop, socket
and thread-join calls. -/
def Event.isBlockingIO : Event → Bool
  | .post _ _ => true
  | .uv_loop_init => true
  | .uv_udp_init _ => true
  | .uv_udp_bind _ _ => true
  | .uv_udp_recv_start => true
  | .uv_udp_recv_stop => true
  | .uv_close => true
  | .uv_run _ => true
  | .pthread_join => true
  | _ => false

/-- How a call ends. -/
inductive Status (α : Type) where
  | done (a : α)
  | aborted
  | fault
  deriving DecidableEq, Repr

/-- The effects of a call, in order, and how it ended. -/
structure Run (α : Type) where
  trace : List Event
  status : Status α
  deriving DecidableEq, Repr

/-- The run `r` with the effects `t` in front of its own. -/
def Run.prepend {α : Type} (t : List Event) (r : Run α) : Run α :=
  ⟨t ++ r.trace, r.status⟩

/-- Sequencing: the second part runs only when the first one returned. -/
def Run.bind {α β : Type} (m : Run α) (f : α → Run β) : Run β :=
  match m.status with
  | .done a => Run.prepend m.trace (f a)
  | .aborted => ⟨m.trace, .aborted⟩
  | .fault => ⟨m.trace, .fault⟩

instance : Monad Run where
  pure a := ⟨[], .done a⟩
  bind := Run.bind

/-- Record one library call. -/
def emit (e : Event) : Run Unit := ⟨[e], .done ()⟩

/-- An invalid memory access. -/
def fault {α : Type} : Run α := ⟨[], .fault⟩

/-- The C `assert`: a no-op under `NDEBUG`, otherwise it aborts on a false
condition. -/
def assert (ndebug : Bool) (cond : Bool) : Run Unit :=
  if ndebug || cond then ⟨[], .done ()⟩ else ⟨[], .aborted⟩

/-- Read through a pointer that is valid only when the cell exists. -/
def deref {α : Type} : Option α → Run α
  | some a => ⟨[], .done a⟩
  | none => fault

/-- The conversion of a `long` to `size_t` (64 bits). -/
def to_size_t (v : Int) : Nat := (v % 2 ^ 64).toNat

/-- The conversion of a `long` to `int` (32 bits, two's complement). -/
def to_int (v : Int) : Int := (v + 2 ^ 31) % 2 ^ 32 - 2 ^ 31

/-- The call `memcpy(dst, src, bytes)` out of a block of doubles into the
block at address `dst`: neither pointer may be NULL and the source block must
hold `bytes` bytes.  The result is what the destination holds afterwards. -/
def memcpy (dst : Nat) (src : Block) (bytes : Nat) : Run (List t_double) := do
  emit (.memcpy dst src.addr bytes)
  if dst = 0 ∨ src.addr = 0 then fault
  else if bytes ≤ 8 * src.cells.length then pure (src.cells.take (bytes / 8))
  else fault

/-! ## The render path -/

/-- The loop `while (n--) *outL++ = *in1b++;` for a non-negative `n`: both
pointers walk forward, a step past the end of either block is a fault.  The
result is the output vector after the loop. -/
def perform_loop : Nat → List t_double → List t_double → Option (List t_double)
  | 0, _, outL => some outL
  | n + 1, s :: in1b, _ :: outL => (perform_loop n in1b outL).map (fun r => s :: r)
  | _ + 1, _, _ => none

/-- What a render call leaves behind: the object, the input vectors and the
output vectors. -/
structure Rendered where
  x : t_dlnetreceive
  ins : List (List t_double)
  outs : List (List t_double)
  deriving DecidableEq, Repr

/-- The perform routine `dlnetreceive_perform64`.  `ins` and `outs` are the
signal vectors the host passes (`numins`, `numouts` are their counts); the
parameters `dsp64`, `flags` and `userparam` are not used by the source.
`scratch` is the address `malloc` returns for `in1b` (0 for NULL); the source
uses it unchecked and never frees it. -/
def dlnetreceive_perform64 (x : t_dlnetreceive) (ins : List (List t_double))
    (outs : List (List t_double)) (sampleframes : Int) (scratch : Nat) : Run Rendered := do
  let _in1a ← deref ins.head?
  emit (.malloc (to_size_t (sampleframes * 8)))
  let outL ← deref outs.head?
  let n := to_int sampleframes
  let in1b ← memcpy scratch x.buffer.base (to_size_t (sampleframes * 8))
  if n < 0 then fault else
  match perform_loop n.toNat in1b outL with
  | some outL1 => pure ⟨x, ins, outL1 :: outs.tail⟩
  | none => fault

/-! ## Construction -/

/-- A Max atom.  A float atom is kept by its value truncated to an integer,
which is all `atom_getlong` reads of it. -/
inductive t_atom where
  | A_LONG (v : Int)
  | A_FLOAT (whole : Int)
  | A_SYM (s : String)
  deriving DecidableEq, Repr

/-- The Max SDK accessor `atom_getlong`: the integer value of the atom when it
has one, 0 otherwise. -/
def atom_getlong : t_atom → Int
  | .A_LONG v => v
  | .A_FLOAT w => w
  | .A_SYM _ => 0

/-- The Max SDK accessor `atom_getsym`: the symbol of the atom when it holds
one, the empty symbol otherwise.  Symbols are interned by `gensym`, so a symbol
is its name and pointer equality of names is string equality. -/
def atom_getsym : t_atom → String
  | .A_SYM s => s
  | _ => ""

/-- The symbol `ps_nothing = gensym("")`. -/
def ps_nothing : String := ""

/-- What the host supplies to the constructor: the instance `object_alloc`
returns (none for NULL) with whatever its memory holds, the vector size
`sys_getblksize()`, and the address and the initial contents of the block
`malloc` hands out (the block is not cleared).  Address 0 is a failed
allocation: the constructor stores it unchecked, and every later copy out of
the buffer then faults. -/
structure HostEnv where
  object_alloc : Option t_dlnetreceive
  sys_getblksize : Nat
  malloc_addr : Nat
  malloc_cells : Nat → t_double

/-- The constructor `dlnetreceive_new`.  `argv` is the atom array of `argc`
atoms; the source never looks at `argc`, it reads `ap`, `ap + 1` and `ap + 2`,
and a read past the end of the array is a fault. -/
def dlnetreceive_new (env : HostEnv) (_argc : Int) (argv : List t_atom) :
    Run (Option t_dlnetreceive) := do
  match env.object_alloc with
  | none => pure none
  | some x =>
    let x := { x with d_offset := 0 }
    let a0 ← deref argv[0]?
    let x := { x with d_channels := atom_getlong a0 }
    let x ← (if (x.d_channels > (0 : Int)) ∧ (x.d_channels ≤ MAXIMUM_AUDIO_CHANNELS) then do
        emit (.post "dl.netreceive~: channels set to %d" [.int x.d_channels])
        pure x
      else do
        let x := { x with d_channels := DEFAULT_AUDIO_CHANNELS }
        emit (.post "dl.netreceive~: Channel argument missing or outside allowable range. Channels set to %d" [.int x.d_channels])
        pure x)
    emit (.dsp_setup x.d_channels)
    emit (.outlet_new "signal")
    let a1 ← deref argv[1]?
    let x := { x with d_ipaddr := atom_getsym a1 }
    let x ← (if x.d_ipaddr ≠ ps_nothing then do
        let x := { x with d_ipaddr := atom_getsym a1 }
        emit (.post "dl.netreceive~: Ip address set to %s" [.str x.d_ipaddr])
        pure x
      else do
        let x := { x with d_ipaddr := DEFAULT_IP_ADDRESS }
        emit (.post "dl.netreceive~: IP Address argument missing. set to %s" [.str x.d_ipaddr])
        pure x)
    let a2 ← deref argv[2]?
    let x := { x with d_portno := atom_getsym a2 }
    let x ← (if x.d_portno ≠ ps_nothing then do
        let x := { x with d_portno := atom_getsym a2 }
        emit (.post "dl.netreceive~: Port number set to %s" [.str x.d_portno])
        pure x
      else do
        let x := { x with d_portno := DEFAULT_PORT }
        emit (.post "dl.netreceive~: Port number argument missing. set to %s" [.str x.d_portno])
        pure x)
    emit (.malloc (8 * env.sys_getblksize))
    let base : Block := ⟨env.malloc_addr, (List.range env.sys_getblksize).map env.malloc_cells⟩
    let x := { x with buffer := ⟨base, env.sys_getblksize * 8⟩ }
    pure (some x)

/-- The method `dlnetreceive_float`. -/
def dlnetreceive_float (x : t_dlnetreceive) (f : t_double) : Run t_dlnetreceive :=
  pure { x with d_offset := f }

/-- The method `dlnetreceive_dsp64`; both lines that would reallocate the
buffer are commented out in the source. -/
def dlnetreceive_dsp64 (x : t_dlnetreceive) (samplerate : t_double) (maxvectorsize : Int) :
    Run t_dlnetreceive := do
  emit (.post "my sample rate is: %f" [.dbl samplerate])
  let x := { x with vs := maxvectorsize }
  emit .dsp_add64
  pure x

/-! ## The receiver -/

/-- The error macro `UV_ERROR(msg, code)`: report, then `assert(0)`. -/
def UV_ERROR (ndebug : Bool) (msg : String) (code : Int) : Run Unit := do
  emit (.post "%s: [%s: %s]\n" [.str msg, .err_name code, .strerror code])
  assert ndebug false

/-- The return codes libuv gives during one `sock_connect`. -/
structure UvCodes where
  uv_loop_init : Int
  uv_ip4_addr : Int
  uv_udp_bind : Int
  uv_udp_recv_start : Int
  deriving DecidableEq, Repr

/-- The function `uv_event_loop`: the loop is initialised once and reused. -/
def uv_event_loop (r : UvCodes) (x : t_dlnetreceive) : Run (t_dlnetreceive × LoopPtr) := do
  if x.event_loop_ptr ≠ .null then
    pure (x, x.event_loop_ptr)
  else
    emit .uv_loop_init
    if r.uv_loop_init ≠ 0 then
      pure (x, .null)
    else
      let x := { x with event_loop_ptr := .event_loop_struct }
      pure (x, x.event_loop_ptr)

/-- The function `start_recv`.  `uv_ip4_addr` fills `recv_addr` from its two
literal arguments when it succeeds. -/
def start_recv (ndebug : Bool) (r : UvCodes) (x : t_dlnetreceive) : Run t_dlnetreceive := do
  emit (.uv_ip4_addr "0.0.0.0" 9123)
  let x := if r.uv_ip4_addr = 0 then { x with recv_addr := ⟨"0.0.0.0", 9123⟩ } else x
  if r.uv_ip4_addr ≠ 0 then UV_ERROR ndebug "ip4_addr" r.uv_ip4_addr
  emit (.uv_udp_bind x.recv_addr 0)
  if r.uv_udp_bind ≠ 0 then UV_ERROR ndebug "udp bind" r.uv_udp_bind
  emit .uv_udp_recv_start
  if r.uv_udp_recv_start ≠ 0 then UV_ERROR ndebug "recv start" r.uv_udp_recv_start
  pure x

/-- The libuv call `uv_udp_init(loop, handle)`: it links the handle into the
loop it is given, so it faults on a loop pointer that is NULL or does not
point to an initialised loop. -/
def uv_udp_init (l : LoopPtr) : Run Unit :=
  match l with
  | .event_loop_struct => emit (.uv_udp_init l)
  | _ => ⟨[.uv_udp_init l], .fault⟩

/-- The function `sock_connect`.  The source does not test the loop
`uv_event_loop` returns before it hands it to `uv_udp_init`. -/
def sock_connect (ndebug : Bool) (r : UvCodes) (x : t_dlnetreceive) : Run t_dlnetreceive := do
  let (x, l) ← uv_event_loop r x
  let x := { x with loop := l }
  uv_udp_init x.loop
  let x ← start_recv ndebug r x
  emit .pthread_create
  pure x

/-- The worker `thread_main`. -/
def thread_main (x : t_dlnetreceive) : Run Unit := do
  emit (.post "dlnetreceive: Opening loop" [])
  emit (.uv_run x.loop)
  emit (.post "dlnetreceive: loop closing" [])

/-- The method `dlnetreceive_int`, the control input. -/
def dlnetreceive_int (ndebug : Bool) (r : UvCodes) (x : t_dlnetreceive) (n : Int) :
    Run t_dlnetreceive := do
  if n ≠ 0 then
    sock_connect ndebug r x
  else
    emit .uv_udp_recv_stop
    pure x

/-- The libuv call `uv_ip4_name(src, dst, size)`: it formats the address it
reads through `src`, so a NULL `src` is a fault. -/
def uv_ip4_name : Option sockaddr_in → Run String
  | some a => do
    emit (.uv_ip4_name a)
    pure a.ip
  | none => fault

/-- The receive callback `recv_cb`.  libuv passes `addr = NULL` (here `none`)
when it calls back with nothing to read.  The copy into `x->buffer` is
commented out in the source. -/
def recv_cb (x : t_dlnetreceive) (nread : Int) (buf : uv_buf_t) (addr : Option sockaddr_in)
    (_flags : Nat) : Run t_dlnetreceive := do
  if nread < 0 then
    emit (.post "recv error unexpected\n" [])
    emit .uv_close
    emit (.free buf.base.addr)
    pure x
  else
    emit (.post "Bytes read: %d" [.int nread])
    emit (.post "%s" [.mem buf.base.addr])
    let sender ← uv_ip4_name addr
    emit (.post "dlnetreceive: recv from %s\n" [.str sender])
    emit (.free buf.base.addr)
    pure x

/-- The allocation callback `alloc_cb`; `base` is the block `malloc(size)`
returns, address 0 standing for NULL. -/
def alloc_cb (ndebug : Bool) (base : Block) (size : Nat) : Run uv_buf_t := do
  emit (.malloc size)
  let buf : uv_buf_t := ⟨base, size⟩
  emit (.post "dl.netreceive: message received" [])
  assert ndebug (buf.base.addr != 0)
  pure buf

/-! ## States an object can reach -/

/-- The object states that arise from a constructor call followed by any
sequence of method calls, callbacks and render calls that returned. -/
inductive Reachable (env : HostEnv) : t_dlnetreceive → Prop where
  | new (argc : Int) (argv : List t_atom) (x : t_dlnetreceive) :
      (dlnetreceive_new env argc argv).status = .done (some x) → Reachable env x
  | float (x y : t_dlnetreceive) (f : t_double) :
      Reachable env x → (dlnetreceive_float x f).status = .done y → Reachable env y
  | dsp64 (x y : t_dlnetreceive) (samplerate : t_double) (maxvectorsize : Int) :
      Reachable env x → (dlnetreceive_dsp64 x samplerate maxvectorsize).status = .done y →
      Reachable env y
  | int (ndebug : Bool) (r : UvCodes) (x y : t_dlnetreceive) (n : Int) :
      Reachable env x → (dlnetreceive_int ndebug r x n).status = .done y → Reachable env y
  | recv_cb (x y : t_dlnetreceive) (nread : Int) (buf : uv_buf_t) (addr : Option sockaddr_in)
      (flags : Nat) :
      Reachable env x → (recv_cb x nread buf addr flags).status = .done y → Reachable env y
  | perform64 (x : t_dlnetreceive) (ins outs : List (List t_double)) (sampleframes : Int)
      (scratch : Nat) (res : Rendered) :
      Reachable env x →
      (dlnetreceive_perform64 x ins outs sampleframes scratch).status = .done res →
      Reachable env res.x

/-! ## Concrete inputs -/

/-- Instance memory as `object_alloc` hands it out, cleared. -/
def cleared_object : t_dlnetreceive :=
  ⟨0, 0, "", "", .null, ⟨"", 0⟩, ⟨⟨0, []⟩, 0⟩, 0, .null⟩

/-- A host with vector size 4 whose `malloc` returns cleared memory. -/
def host_cleared : HostEnv := ⟨some cleared_object, 4, 4096, fun _ => 0⟩

/-- A host with vector size 4 whose `malloc` returns a recycled block that
still holds the sample 1.0 in every cell. -/
def host_recycled : HostEnv := ⟨some cleared_object, 4, 4096, fun _ => 0x3FF0000000000000⟩

/-- The arguments `2 127.0.0.1 9000`, address and port as symbols. -/
def scenario_argv : List t_atom := [.A_LONG 2, .A_SYM "127.0.0.1", .A_SYM "9000"]

/-- The object `dlnetreceive_new host_cleared 3 scenario_argv` returns. -/
def scenario_object : t_dlnetreceive :=
  ⟨0, 2, "127.0.0.1", "9000", .null, ⟨"", 0⟩, ⟨⟨4096, [0, 0, 0, 0]⟩, 32⟩, 0, .null⟩

/-- The object after a first start command whose libuv calls all succeeded. -/
def listening_object : t_dlnetreceive :=
  ⟨0, 2, "127.0.0.1", "9000", .event_loop_struct, ⟨"0.0.0.0", 9123⟩,
    ⟨⟨4096, [0, 0, 0, 0]⟩, 32⟩, 0, .event_loop_struct⟩

/-- The 64-byte datagram `[1.0,1.1],[2.0,2.1],[3.0,3.1],[4.0,4.1]` in its
scratch buffer. -/
def scenario_datagram : uv_buf_t :=
  ⟨⟨8192, [0x3FF0000000000000, 0x3FF199999999999A, 0x4000000000000000, 0x4000CCCCCCCCCCCD,
    0x4008000000000000, 0x4008CCCCCCCCCCCD, 0x4010000000000000, 0x4010666666666666]⟩, 64⟩

/-- The sender of the datagram. -/
def scenario_sender : sockaddr_in := ⟨"127.0.0.1", 50000⟩

/-- Return codes of a start in which every libuv call succeeds. -/
def codes_ok : UvCodes := ⟨0, 0, 0, 0⟩

/-- Return codes of a start in which the bind fails (address in use). -/
def codes_bind_fails : UvCodes := ⟨0, 0, -98, 0⟩

/-- A stale signal vector of four samples, as the host may pass it. -/
def stale_vector : List t_double := [9, 9, 9, 9]

/-- The address a successful scratch allocation returns. -/
def scratch_addr : Nat := 12288

/-- Return codes of a start in which the loop initialisation fails (out of
file descriptors) and the bind would fail too. -/
def codes_loop_fails : UvCodes := ⟨-24, 0, -98, 0⟩

/-! ## Computing with runs -/

theorem bind_def {α β : Type} (m : Run α) (f : α → Run β) : (m >>= f) = Run.bind m f := rfl

theorem pure_def {α : Type} (a : α) : (pure a : Run α) = ⟨[], .done a⟩ := rfl

theorem Run.bind_done {α β : Type} (t : List Event) (a : α) (f : α → Run β) :
    Run.bind ⟨t, .done a⟩ f = Run.prepend t (f a) := rfl

theorem Run.bind_fault {α β : Type} (t : List Event) (f : α → Run β) :
    Run.bind ⟨t, .fault⟩ f = ⟨t, .fault⟩ := rfl

theorem Run.bind_aborted {α β : Type} (t : List Event) (f : α → Run β) :
    Run.bind ⟨t, .aborted⟩ f = ⟨t, .aborted⟩ := rfl

theorem Run.prepend_mk {α : Type} (t u : List Event) (s : Status α) :
    Run.prepend t ⟨u, s⟩ = ⟨t ++ u, s⟩ := rfl

/-! ## Lemmas on the render path -/

theorem perform_loop_eq (n : Nat) : ∀ (in1b outL : List t_double),
    n ≤ in1b.length → n ≤ outL.length →
    perform_loop n in1b outL = some (in1b.take n ++ outL.drop n) := by
  induction n with
  | zero => intro in1b outL _ _; simp [perform_loop]
  | succ k ih =>
    intro in1b outL h1 h2
    cases in1b with
    | nil => simp at h1
    | cons s t =>
      cases outL with
      | nil => simp at h2
      | cons o u =>
        simp only [List.length_cons, Nat.add_le_add_iff_right] at h1 h2
        simp [perform_loop, ih t u h1 h2]

theorem to_int_of_small (n : Nat) (h : n < 2 ^ 31) : to_int (n : Int) = n := by
  unfold to_int
  omega

theorem to_size_t_of_small (n : Nat) (h : n < 2 ^ 31) : to_size_t ((n : Int) * 8) = 8 * n := by
  unfold to_size_t
  omega

/-- The effects of a render call that finds no output vector. -/
theorem perform64_trace_nil (x : t_dlnetreceive) (in0 : List t_double)
    (ins : List (List t_double)) (sampleframes : Int) (scratch : Nat) :
    (dlnetreceive_perform64 x (in0 :: ins) [] sampleframes scratch).trace
      = [.malloc (to_size_t (sampleframes * 8))] := by
  unfold dlnetreceive_perform64
  simp only [bind_def, deref, fault, emit, List.head?, Run.bind_done, Run.bind_fault,
    Run.prepend_mk, List.nil_append, List.append_nil]

/-- The effects of a render call that has an output vector: the allocation
of the scratch block and the copy into it, on every path. -/
theorem perform64_trace_cons (x : t_dlnetreceive) (in0 : List t_double)
    (ins : List (List t_double)) (outL : List t_double) (outs : List (List t_double))
    (sampleframes : Int) (scratch : Nat) :
    (dlnetreceive_perform64 x (in0 :: ins) (outL :: outs) sampleframes scratch).trace
      = [.malloc (to_size_t (sampleframes * 8)),
         .memcpy scratch x.buffer.base.addr (to_size_t (sampleframes * 8))] := by
  unfold dlnetreceive_perform64 memcpy
  by_cases hp : scratch = 0 ∨ x.buffer.base.addr = 0
  · simp only [bind_def, pure_def, deref, fault, emit, List.head?, Run.bind_done,
      Run.bind_fault, Run.prepend_mk, hp, ↓reduceIte, List.nil_append, List.append_nil,
      List.singleton_append]
  · by_cases hb : to_size_t (sampleframes * 8) ≤ 8 * x.buffer.base.cells.length
    · by_cases hneg : to_int sampleframes < 0
      · simp only [bind_def, pure_def, deref, fault, emit, List.head?, Run.bind_done,
          Run.prepend_mk, hp, hb, hneg, ↓reduceIte, List.nil_append, List.append_nil,
          List.singleton_append]
      · simp only [bind_def, pure_def, deref, fault, emit, List.head?, Run.bind_done,
          Run.prepend_mk, hp, hb, hneg, ↓reduceIte, List.nil_append, List.append_nil,
          List.singleton_append]
        split <;> rfl
    · simp only [bind_def, pure_def, deref, fault, emit, List.head?, Run.bind_done,
        Run.bind_fault, Run.prepend_mk, hp, hb, ↓reduceIte, List.nil_append, List.append_nil,
        List.singleton_append]

/-- A render call of `n` frames whose scratch allocation succeeded, on an
object whose buffer block exists and holds at least `n` samples, computed in
full. -/
theorem perform64_run (x : t_dlnetreceive) (in0 : List t_double) (ins : List (List t_double))
    (outL : List t_double) (outs : List (List t_double)) (n : Nat) (scratch : Nat)
    (hs : scratch ≠ 0) (hbase : x.buffer.base.addr ≠ 0)
    (hn : n ≤ x.buffer.base.cells.length) (hblk : x.buffer.base.cells.length < 2 ^ 31)
    (hout : n ≤ outL.length) :
    dlnetreceive_perform64 x (in0 :: ins) (outL :: outs) n scratch =
      ⟨[.malloc (8 * n), .memcpy scratch x.buffer.base.addr (8 * n)],
        .done ⟨x, in0 :: ins, (x.buffer.base.cells.take n ++ outL.drop n) :: outs⟩⟩ := by
  have hn31 : n < 2 ^ 31 := lt_of_le_of_lt hn hblk
  have h1 := to_int_of_small n hn31
  have h2 := to_size_t_of_small n hn31
  have h3 : perform_loop n (List.take n x.buffer.base.cells) outL
      = some (x.buffer.base.cells.take n ++ outL.drop n) := by
    have := perform_loop_eq n (List.take n x.buffer.base.cells) outL
      (by rw [List.length_take]; omega) hout
    rw [this, List.take_take, Nat.min_self]
  have h4 : 8 * n ≤ 8 * x.buffer.base.cells.length := by omega
  have h5 : ¬ ((n : Int) < 0) := by omega
  have h6 : 8 * n / 8 = n := by omega
  have hp : ¬ (scratch = 0 ∨ x.buffer.base.addr = 0) := by
    intro h
    cases h with
    | inl h => exact hs h
    | inr h => exact hbase h
  clear hn31 hblk hn hout
  unfold dlnetreceive_perform64 memcpy
  simp only [bind_def, pure_def, deref, emit, List.head?, Run.bind_done,
    Run.prepend_mk, h1, h2, h4, h5, h6, h3, hp, ↓reduceIte, Int.toNat_ofNat, List.tail_cons,
    List.nil_append, List.append_nil, List.singleton_append, List.cons_append]

/-- A render call whose scratch allocation failed: the copy into NULL
faults. -/
theorem perform64_run_null (x : t_dlnetreceive) (in0 : List t_double)
    (ins : List (List t_double)) (outL : List t_double) (outs : List (List t_double))
    (sampleframes : Int) :
    dlnetreceive_perform64 x (in0 :: ins) (outL :: outs) sampleframes 0 =
      ⟨[.malloc (to_size_t (sampleframes * 8)),
        .memcpy 0 x.buffer.base.addr (to_size_t (sampleframes * 8))], .fault⟩ := by
  unfold dlnetreceive_perform64 memcpy
  simp only [bind_def, deref, fault, emit, List.head?, Run.bind_done, Run.bind_fault,
    Run.prepend_mk, true_or, ↓reduceIte, List.nil_append, List.append_nil,
    List.singleton_append]

/-! ## The buffer is never replaced -/

theorem float_buffer (x y : t_dlnetreceive) (f : t_double)
    (h : (dlnetreceive_float x f).status = .done y) : y.buffer = x.buffer := by
  simp only [dlnetreceive_float, pure_def, Status.done.injEq] at h
  subst h; rfl

theorem dsp64_buffer (x y : t_dlnetreceive) (sr : t_double) (vs : Int)
    (h : (dlnetreceive_dsp64 x sr vs).status = .done y) : y.buffer = x.buffer := by
  simp only [dlnetreceive_dsp64, bind_def, pure_def, emit, Run.bind_done, Run.prepend_mk,
    Status.done.injEq] at h
  subst h; rfl

/-- The receive callback in full, for a sender address that is not NULL. -/
theorem recv_cb_run_sender (x : t_dlnetreceive) (nread : Int) (buf : uv_buf_t)
    (a : sockaddr_in) (flags : Nat) :
    recv_cb x nread buf (some a) flags =
      if nread < 0 then
        ⟨[.post "recv error unexpected\n" [], .uv_close, .free buf.base.addr], .done x⟩
      else
        ⟨[.post "Bytes read: %d" [.int nread], .post "%s" [.mem buf.base.addr],
          .uv_ip4_name a, .post "dlnetreceive: recv from %s\n" [.str a.ip],
          .free buf.base.addr], .done x⟩ := by
  unfold recv_cb
  by_cases h : nread < 0 <;>
    simp only [h, ↓reduceIte, bind_def, pure_def, emit, uv_ip4_name, Run.bind_done,
      Run.prepend_mk, List.nil_append, List.append_nil, List.singleton_append, List.cons_append]

/-- The receive callback in full, for a NULL sender address. -/
theorem recv_cb_run_null (x : t_dlnetreceive) (nread : Int) (buf : uv_buf_t) (flags : Nat) :
    recv_cb x nread buf none flags =
      if nread < 0 then
        ⟨[.post "recv error unexpected\n" [], .uv_close, .free buf.base.addr], .done x⟩
      else
        ⟨[.post "Bytes read: %d" [.int nread], .post "%s" [.mem buf.base.addr]], .fault⟩ := by
  unfold recv_cb
  by_cases h : nread < 0 <;>
    simp only [h, ↓reduceIte, bind_def, pure_def, emit, uv_ip4_name, fault, Run.bind_done,
      Run.bind_fault, Run.prepend_mk, List.nil_append, List.append_nil, List.singleton_append,
      List.cons_append]

/-- A receive callback that returns leaves the whole object as it was: the
payload is not copied anywhere. -/
theorem recv_cb_object (x y : t_dlnetreceive) (nread : Int) (buf : uv_buf_t)
    (addr : Option sockaddr_in) (flags : Nat)
    (h : (recv_cb x nread buf addr flags).status = .done y) : y = x := by
  cases addr with
  | none =>
    rw [recv_cb_run_null] at h
    by_cases c : nread < 0
    · rw [if_pos c] at h
      injection h with h
      exact h.symm
    · rw [if_neg c] at h
      cases h
  | some a =>
    rw [recv_cb_run_sender] at h
    by_cases c : nread < 0
    · rw [if_pos c] at h
      injection h with h
      exact h.symm
    · rw [if_neg c] at h
      injection h with h
      exact h.symm

theorem perform64_object (x : t_dlnetreceive) (ins outs : List (List t_double)) (n : Int)
    (scratch : Nat) (res : Rendered)
    (h : (dlnetreceive_perform64 x ins outs n scratch).status = .done res) :
    res.x = x := by
  unfold dlnetreceive_perform64 memcpy at h
  cases ins with
  | nil =>
    simp only [bind_def, deref, fault, List.head?, Run.bind_fault] at h
    cases h
  | cons in0 ins =>
    cases outs with
    | nil =>
      simp only [bind_def, deref, fault, emit, List.head?, Run.bind_done, Run.bind_fault,
        Run.prepend_mk] at h
      cases h
    | cons outL outs =>
      by_cases hp : scratch = 0 ∨ x.buffer.base.addr = 0
      · simp only [bind_def, pure_def, deref, fault, emit, List.head?, Run.bind_done,
          Run.bind_fault, Run.prepend_mk, hp, ↓reduceIte] at h
        cases h
      · by_cases hb : to_size_t (n * 8) ≤ 8 * x.buffer.base.cells.length
        · by_cases hneg : to_int n < 0
          · simp only [bind_def, pure_def, deref, fault, emit, List.head?,
              Run.bind_done, Run.prepend_mk, hp, hb, hneg, ↓reduceIte] at h
            cases h
          · simp only [bind_def, pure_def, deref, fault, emit, List.head?,
              Run.bind_done, Run.prepend_mk, hp, hb, hneg, ↓reduceIte] at h
            split at h
            · simp only [Run.prepend_mk, Status.done.injEq] at h
              subst h; rfl
            · cases h
        · simp only [bind_def, pure_def, deref, fault, emit, List.head?,
            Run.bind_done, Run.bind_fault, Run.prepend_mk, hp, hb, ↓reduceIte] at h
          cases h

theorem Run.bind_status_done {α β : Type} (m : Run α) (f : α → Run β) (b : β)
    (h : (Run.bind m f).status = .done b) :
    ∃ a, m.status = .done a ∧ (f a).status = .done b := by
  unfold Run.bind at h
  cases hm : m.status with
  | done a =>
    rw [hm] at h
    exact ⟨a, rfl, h⟩
  | aborted => rw [hm] at h; cases h
  | fault => rw [hm] at h; cases h

/-- The function `uv_event_loop` in full. -/
theorem uv_event_loop_run (r : UvCodes) (x : t_dlnetreceive) :
    uv_event_loop r x =
      if x.event_loop_ptr ≠ .null then ⟨[], .done (x, x.event_loop_ptr)⟩
      else if r.uv_loop_init ≠ 0 then ⟨[.uv_loop_init], .done (x, .null)⟩
      else ⟨[.uv_loop_init],
        .done ({ x with event_loop_ptr := .event_loop_struct }, .event_loop_struct)⟩ := by
  unfold uv_event_loop
  by_cases h1 : x.event_loop_ptr = .null
  · by_cases h2 : r.uv_loop_init = 0
    · simp only [h1, h2, ne_eq, not_true_eq_false, ↓reduceIte, bind_def, pure_def, emit,
        Run.bind_done, Run.prepend_mk, List.append_nil, List.nil_append]
    · simp only [h1, h2, ne_eq, not_true_eq_false, not_false_eq_true, ↓reduceIte, bind_def,
        pure_def, emit, Run.bind_done, Run.prepend_mk, List.append_nil, List.nil_append]
  · simp only [h1, ne_eq, not_false_eq_true, ↓reduceIte, pure_def]

theorem uv_event_loop_buffer (r : UvCodes) (x y : t_dlnetreceive) (l : LoopPtr)
    (h : (uv_event_loop r x).status = .done (y, l)) : y.buffer = x.buffer := by
  rw [uv_event_loop_run] at h
  split_ifs at h <;>
    (injection h with h; injection h with h1 h2; subst h1; rfl)

theorem start_recv_buffer (ndebug : Bool) (r : UvCodes) (x y : t_dlnetreceive)
    (h : (start_recv ndebug r x).status = .done y) : y.buffer = x.buffer := by
  unfold start_recv UV_ERROR assert at h
  by_cases h3 : r.uv_ip4_addr = 0 <;> by_cases h4 : r.uv_udp_bind = 0 <;>
    by_cases h5 : r.uv_udp_recv_start = 0 <;> cases ndebug <;>
    simp only [h3, h4, h5, ne_eq, not_true_eq_false, not_false_eq_true, ↓reduceIte, bind_def,
      pure_def, emit, Run.bind_done, Run.bind_aborted, Run.prepend_mk, Bool.or_false,
      Bool.false_or, Bool.true_or, Bool.or_self, Bool.false_eq_true, List.append_nil,
      List.nil_append, Status.done.injEq, reduceCtorEq] at h <;>
    (subst h; rfl)

theorem sock_connect_buffer (ndebug : Bool) (r : UvCodes) (x y : t_dlnetreceive)
    (h : (sock_connect ndebug r x).status = .done y) : y.buffer = x.buffer := by
  unfold sock_connect at h
  rw [bind_def] at h
  obtain ⟨⟨x1, l⟩, h1, h⟩ := Run.bind_status_done _ _ _ h
  have hb1 := uv_event_loop_buffer r x x1 l h1
  simp only [bind_def] at h
  obtain ⟨_, _, h⟩ := Run.bind_status_done _ _ _ h
  obtain ⟨x2, h2, h⟩ := Run.bind_status_done _ _ _ h
  have hb2 := start_recv_buffer ndebug r _ x2 h2
  simp only [pure_def, emit, Run.bind_done, Run.prepend_mk, Status.done.injEq] at h
  subst h
  rw [hb2, ← hb1]

theorem int_buffer (ndebug : Bool) (r : UvCodes) (x y : t_dlnetreceive) (n : Int)
    (h : (dlnetreceive_int ndebug r x n).status = .done y) : y.buffer = x.buffer := by
  unfold dlnetreceive_int at h
  by_cases h0 : n = 0
  · simp only [h0, ne_eq, not_true_eq_false, ↓reduceIte, bind_def, pure_def, emit,
      Run.bind_done, Run.prepend_mk, Status.done.injEq] at h
    subst h; rfl
  · simp only [h0, ne_eq, not_false_eq_true, ↓reduceIte] at h
    exact sock_connect_buffer ndebug r x y h

/-! ## The constructor -/

/-- With three atoms or more the constructor returns this object. -/
theorem new_status_three (env : HostEnv) (raw : t_dlnetreceive) (argc : Int)
    (a0 a1 a2 : t_atom) (rest : List t_atom) (ho : env.object_alloc = some raw) :
    (dlnetreceive_new env argc (a0 :: a1 :: a2 :: rest)).status = .done (some
      { raw with
        d_offset := 0
        d_channels := if 0 < atom_getlong a0 ∧ atom_getlong a0 ≤ 32 then atom_getlong a0 else 1
        d_ipaddr := if atom_getsym a1 = "" then "0.0.0.0" else atom_getsym a1
        d_portno := if atom_getsym a2 = "" then "8000" else atom_getsym a2
        buffer := ⟨⟨env.malloc_addr, (List.range env.sys_getblksize).map env.malloc_cells⟩,
          env.sys_getblksize * 8⟩ }) := by
  unfold dlnetreceive_new
  rw [ho]
  by_cases c0 : 0 < atom_getlong a0 ∧ atom_getlong a0 ≤ 32 <;>
    by_cases c1 : atom_getsym a1 = "" <;>
    by_cases c2 : atom_getsym a2 = "" <;>
    simp only [c0, c1, c2, gt_iff_lt, MAXIMUM_AUDIO_CHANNELS, DEFAULT_AUDIO_CHANNELS, ps_nothing,
      DEFAULT_IP_ADDRESS, DEFAULT_PORT, ne_eq, not_true_eq_false, not_false_eq_true,
      ↓reduceIte, bind_def, pure_def, emit, deref, Run.bind_done, Run.prepend_mk,
      List.getElem?_cons_zero, List.getElem?_cons_succ, and_self]

/-- With fewer than three atoms the constructor reads past the array. -/
theorem new_status_short (env : HostEnv) (raw : t_dlnetreceive) (argc : Int)
    (argv : List t_atom) (ho : env.object_alloc = some raw) (hlen : argv.length < 3) :
    (dlnetreceive_new env argc argv).status = .fault := by
  unfold dlnetreceive_new
  rw [ho]
  rcases argv with _ | ⟨a0, _ | ⟨a1, _ | ⟨a2, rest⟩⟩⟩
  · simp only [bind_def, deref, fault, List.getElem?_nil, Run.bind_fault]
  · by_cases c0 : 0 < atom_getlong a0 ∧ atom_getlong a0 ≤ 32 <;>
      simp only [c0, gt_iff_lt, MAXIMUM_AUDIO_CHANNELS, DEFAULT_AUDIO_CHANNELS, ↓reduceIte,
        bind_def, pure_def, emit, deref, fault, Run.bind_done, Run.bind_fault, Run.prepend_mk,
        List.getElem?_cons_zero, List.getElem?_cons_succ, List.getElem?_nil, and_self]
  · by_cases c0 : 0 < atom_getlong a0 ∧ atom_getlong a0 ≤ 32 <;>
      by_cases c1 : atom_getsym a1 = "" <;>
      simp only [c0, c1, gt_iff_lt, MAXIMUM_AUDIO_CHANNELS, DEFAULT_AUDIO_CHANNELS, ps_nothing,
        DEFAULT_IP_ADDRESS, ne_eq, not_true_eq_false, not_false_eq_true, ↓reduceIte,
        bind_def, pure_def, emit, deref, fault, Run.bind_done, Run.bind_fault, Run.prepend_mk,
        List.getElem?_cons_zero, List.getElem?_cons_succ, List.getElem?_nil, and_self]
  · simp only [List.length_cons] at hlen
    omega

theorem new_buffer (env : HostEnv) (argc : Int) (argv : List t_atom) (x : t_dlnetreceive)
    (h : (dlnetreceive_new env argc argv).status = .done (some x)) :
    x.buffer.base.cells.length = env.sys_getblksize ∧ x.buffer.base.addr = env.malloc_addr := by
  cases ho : env.object_alloc with
  | none =>
    unfold dlnetreceive_new at h
    rw [ho] at h
    simp only [pure_def, Status.done.injEq, reduceCtorEq] at h
  | some raw =>
    by_cases hlen : argv.length < 3
    · rw [new_status_short env raw argc argv ho hlen] at h
      cases h
    · rcases argv with _ | ⟨a0, _ | ⟨a1, _ | ⟨a2, rest⟩⟩⟩
      · simp at hlen
      · simp at hlen
      · simp at hlen
      · rw [new_status_three env raw argc a0 a1 a2 rest ho] at h
        injection h with h
        injection h with h
        subst h
        exact ⟨by simp only [List.length_map, List.length_range], rfl⟩

/-- In every reachable state the buffer is the block the constructor took
from `malloc`, as many samples long as the vector size was then. -/
theorem reachable_buffer (env : HostEnv) (x : t_dlnetreceive) (hx : Reachable env x) :
    x.buffer.base.cells.length = env.sys_getblksize ∧ x.buffer.base.addr = env.malloc_addr := by
  induction hx with
  | new argc argv x h => exact new_buffer env argc argv x h
  | float x y f _ h ih => rw [float_buffer x y f h]; exact ih
  | dsp64 x y sr vs _ h ih => rw [dsp64_buffer x y sr vs h]; exact ih
  | int ndebug r x y n _ h ih => rw [int_buffer ndebug r x y n h]; exact ih
  | recv_cb x y nread buf addr flags _ h ih =>
    rw [recv_cb_object x y nread buf addr flags h]; exact ih
  | perform64 x ins outs n scratch res _ h ih =>
    rw [perform64_object x ins outs n scratch res h]; exact ih

/-! ## The receive callback with a sender address -/

/-- Called back with a sender address, the callback returns, closes the handle
exactly when the read result is negative, and releases the scratch buffer
once. -/
theorem recv_cb_with_sender (x : t_dlnetreceive) (nread : Int) (buf : uv_buf_t)
    (a : sockaddr_in) (flags : Nat) :
    (recv_cb x nread buf (some a) flags).status = .done x ∧
    (Event.uv_close ∈ (recv_cb x nread buf (some a) flags).trace ↔ nread < 0) ∧
    (recv_cb x nread buf (some a) flags).trace.count (.free buf.base.addr) = 1 := by
  rw [recv_cb_run_sender]
  by_cases h : nread < 0
  · simp only [h, ↓reduceIte, iff_true, true_and]
    exact ⟨by simp, by simp [List.count_cons]⟩
  · simp only [h, ↓reduceIte, iff_false, true_and]
    exact ⟨by simp, by simp [List.count_cons]⟩

/-! ## The start command -/

/-- The function `start_recv` in full, assertions enabled. -/
theorem start_recv_run (r : UvCodes) (x : t_dlnetreceive) :
    start_recv false r x =
      if r.uv_ip4_addr ≠ 0 then
        ⟨[.uv_ip4_addr "0.0.0.0" 9123,
          .post "%s: [%s: %s]\n" [.str "ip4_addr", .err_name r.uv_ip4_addr,
            .strerror r.uv_ip4_addr]], .aborted⟩
      else if r.uv_udp_bind ≠ 0 then
        ⟨[.uv_ip4_addr "0.0.0.0" 9123, .uv_udp_bind ⟨"0.0.0.0", 9123⟩ 0,
          .post "%s: [%s: %s]\n" [.str "udp bind", .err_name r.uv_udp_bind,
            .strerror r.uv_udp_bind]], .aborted⟩
      else if r.uv_udp_recv_start ≠ 0 then
        ⟨[.uv_ip4_addr "0.0.0.0" 9123, .uv_udp_bind ⟨"0.0.0.0", 9123⟩ 0, .uv_udp_recv_start,
          .post "%s: [%s: %s]\n" [.str "recv start", .err_name r.uv_udp_recv_start,
            .strerror r.uv_udp_recv_start]], .aborted⟩
      else
        ⟨[.uv_ip4_addr "0.0.0.0" 9123, .uv_udp_bind ⟨"0.0.0.0", 9123⟩ 0, .uv_udp_recv_start],
          .done { x with recv_addr := ⟨"0.0.0.0", 9123⟩ }⟩ := by
  unfold start_recv UV_ERROR assert
  by_cases h3 : r.uv_ip4_addr = 0 <;> by_cases h4 : r.uv_udp_bind = 0 <;>
    by_cases h5 : r.uv_udp_recv_start = 0 <;>
    simp only [h3, h4, h5, ne_eq, not_true_eq_false, not_false_eq_true, ↓reduceIte, bind_def,
      pure_def, emit, Run.bind_done, Run.bind_aborted, Run.prepend_mk, Bool.or_false,
      Bool.false_eq_true, List.append_nil, List.nil_append, List.singleton_append,
      List.cons_append]

/-- The function `sock_connect` in full, assertions enabled: the effects of
`uv_event_loop`, the handle initialisation, the effects of `start_recv`, and
the thread creation when `start_recv` returned. -/
theorem sock_connect_run (r : UvCodes) (x : t_dlnetreceive) :
    sock_connect false r x =
      Run.bind (uv_event_loop r x) (fun p =>
        Run.bind (uv_udp_init p.2) (fun _ =>
          Run.bind (start_recv false r { p.1 with loop := p.2 }) (fun y =>
            ⟨[.pthread_create], .done y⟩))) := by
  unfold sock_connect
  simp only [bind_def, pure_def, emit, Run.bind_done, Run.prepend_mk, List.append_nil]

/-- In every state reachable from a construction whose buffer allocation
succeeded, with vector size `b` (an `int`), a render call of `n ≤ b` frames
whose scratch allocation succeeded, with host vectors of at least `n` samples,
returns: every read of the buffer is in bounds, the first `n` samples of
output 0 are the first `n` samples of the buffer, and the rest of output 0,
the other outputs, the inputs and the object are unchanged. -/
theorem perform64_copies_buffer (env : HostEnv) (x : t_dlnetreceive) (hx : Reachable env x)
    (hblk : env.sys_getblksize < 2 ^ 31) (halloc : env.malloc_addr ≠ 0)
    (in0 : List t_double) (ins : List (List t_double))
    (outL : List t_double) (outs : List (List t_double)) (n : Nat) (scratch : Nat)
    (hs : scratch ≠ 0) (hn : n ≤ env.sys_getblksize) (hout : n ≤ outL.length) :
    x.buffer.base.cells.length = env.sys_getblksize ∧
    ∃ out0, (dlnetreceive_perform64 x (in0 :: ins) (outL :: outs) n scratch).status
        = .done ⟨x, in0 :: ins, out0 :: outs⟩ ∧
      out0.take n = x.buffer.base.cells.take n ∧ out0.drop n = outL.drop n ∧
      out0.length = outL.length := by
  obtain ⟨hlen, haddr⟩ := reachable_buffer env x hx
  have htake : (List.take n x.buffer.base.cells).length = n := by
    rw [List.length_take]
    omega
  refine ⟨hlen, x.buffer.base.cells.take n ++ outL.drop n, ?_, ?_, ?_, ?_⟩
  · rw [perform64_run x in0 ins outL outs n scratch hs (by rw [haddr]; exact halloc)
      (by omega) (by omega) hout]
  · rw [List.take_append_of_le_length (by omega), List.take_of_length_le (by omega)]
  · rw [List.drop_append_of_le_length (by omega), List.drop_of_length_le (by omega),
      List.nil_append]
  · rw [List.length_append, htake, List.length_drop]
    omega

/-- A start command on a fresh object whose loop initialisation fails hands
the NULL loop to `uv_udp_init` and faults there, before any address parse or
bind. -/
theorem start_without_loop_faults :
    dlnetreceive_int false codes_loop_fails scenario_object 1 =
      ⟨[.uv_loop_init, .uv_udp_init .null], .fault⟩ := by
  decide

/-! ## The claims -/

/-- C1 (code at the failing input): the object is built with channels = 2,
address 127.0.0.1, port 9000; the receive callback processes the 64-byte
datagram of four frames and returns the object unchanged; the next render call
of four frames then writes the four samples of the untouched internal buffer
(here cleared memory) to the single output vector, and no sample of the
datagram. -/
theorem recv_then_render_drops_datagram :
    (dlnetreceive_new host_cleared 3 scenario_argv).status = .done (some scenario_object) ∧
    (recv_cb scenario_object 64 scenario_datagram (some scenario_sender) 0).status
      = .done scenario_object ∧
    (dlnetreceive_perform64 scenario_object [stale_vector, stale_vector] [stale_vector] 4
        scratch_addr).status
      = .done ⟨scenario_object, [stale_vector, stale_vector], [[0, 0, 0, 0]]⟩ ∧
    ∀ s ∈ scenario_datagram.base.cells, s ∉ [0, 0, 0, 0] := by
  refine ⟨by decide, by decide, by decide, by decide⟩

/-- C2 (code at the failing input): on a freshly constructed object that never
received a datagram, whose buffer block came from `malloc` still holding the
sample 1.0, a render call of four frames writes four samples 1.0, not 0.0. -/
theorem cold_start_render_not_silent :
    ∃ x, (dlnetreceive_new host_recycled 3 scenario_argv).status = .done (some x) ∧
      (dlnetreceive_perform64 x [stale_vector, stale_vector] [stale_vector] 4
          scratch_addr).status
        = .done ⟨x, [stale_vector, stale_vector],
            [[0x3FF0000000000000, 0x3FF0000000000000, 0x3FF0000000000000,
              0x3FF0000000000000]]⟩ :=
  ⟨⟨0, 2, "127.0.0.1", "9000", .null, ⟨"", 0⟩,
    ⟨⟨4096, [0x3FF0000000000000, 0x3FF0000000000000, 0x3FF0000000000000,
      0x3FF0000000000000]⟩, 32⟩, 0, .null⟩, by decide, by decide⟩

/-- C3 (counterexample): the render call of four frames on the scenario object
allocates 32 bytes. -/
theorem render_call_allocates :
    Event.malloc 32 ∈
      (dlnetreceive_perform64 scenario_object [stale_vector, stale_vector] [stale_vector] 4
        scratch_addr).trace := by
  decide

/-- C3 (amended): among the effects of every render call (the host passes at
least one input vector) there is exactly one allocation, the `malloc` of
`sampleframes * 8` bytes for the scratch copy, and there is no call that takes
a lock and no logging, event loop, socket or thread-join call.  Nothing is
said of whether the scratch block is released. -/
theorem render_call_effects (x : t_dlnetreceive) (in0 : List t_double)
    (ins outs : List (List t_double)) (sampleframes : Int) (scratch : Nat) :
    (dlnetreceive_perform64 x (in0 :: ins) outs sampleframes scratch).trace.filter Event.isAlloc
      = [.malloc (to_size_t (sampleframes * 8))] ∧
    ∀ e ∈ (dlnetreceive_perform64 x (in0 :: ins) outs sampleframes scratch).trace,
      e.isLock = false ∧ e.isBlockingIO = false := by
  cases outs with
  | nil =>
    rw [perform64_trace_nil]
    refine ⟨rfl, ?_⟩
    intro e he
    simp only [List.mem_singleton] at he
    subst he
    exact ⟨rfl, rfl⟩
  | cons outL outs =>
    rw [perform64_trace_cons]
    refine ⟨rfl, ?_⟩
    intro e he
    simp only [List.mem_cons, List.mem_singleton, List.not_mem_nil, or_false] at he
    cases he with
    | inl he => subst he; exact ⟨rfl, rfl⟩
    | inr he => subst he; exact ⟨rfl, rfl⟩

/-- C4 (code at the failing input): the object configured with address
127.0.0.1 and port 9000 binds, on a start command, to 0.0.0.0 port 9123. -/
theorem start_binds_fixed_endpoint :
    (dlnetreceive_new host_cleared 3 scenario_argv).status = .done (some scenario_object) ∧
    scenario_object.d_ipaddr = "127.0.0.1" ∧ scenario_object.d_portno = "9000" ∧
    (dlnetreceive_int false codes_ok scenario_object 1).trace =
      [.uv_loop_init, .uv_udp_init .event_loop_struct, .uv_ip4_addr "0.0.0.0" 9123,
        .uv_udp_bind ⟨"0.0.0.0", 9123⟩ 0, .uv_udp_recv_start, .pthread_create] := by
  refine ⟨by decide, by decide, by decide, by decide⟩

/-- C5 (code at the failing input): constructed with the single argument 0,
the constructor falls back to one channel, sets up the inlet and the outlet,
and then reads the address atom past the end of the argument array. -/
theorem new_reads_past_arguments :
    dlnetreceive_new host_cleared 1 [.A_LONG 0] =
      ⟨[.post "dl.netreceive~: Channel argument missing or outside allowable range. Channels set to %d" [.int 1],
        .dsp_setup 1, .outlet_new "signal"], .fault⟩ := by
  decide

/-- C6 (code at the failing input): a second nonzero control value, received
while the first session is listening, initialises the handle again, binds
again and creates a second worker thread; when that second bind fails the
process is aborted. -/
theorem second_start_repeats_session_setup :
    (dlnetreceive_int false codes_ok scenario_object 1).status = .done listening_object ∧
    (dlnetreceive_int false codes_ok listening_object 1).trace =
      [.uv_udp_init .event_loop_struct, .uv_ip4_addr "0.0.0.0" 9123,
        .uv_udp_bind ⟨"0.0.0.0", 9123⟩ 0, .uv_udp_recv_start, .pthread_create] ∧
    (dlnetreceive_int false codes_bind_fails listening_object 1).status = .aborted := by
  refine ⟨by decide, by decide, by decide⟩

/-- C7 (code on every input): a zero control value makes the single call
`uv_udp_recv_stop` and returns the object unchanged; the handle is not closed
and no thread is joined. -/
theorem stop_only_stops_receiving (ndebug : Bool) (r : UvCodes) (x : t_dlnetreceive) :
    dlnetreceive_int ndebug r x 0 = ⟨[.uv_udp_recv_stop], .done x⟩ := by
  unfold dlnetreceive_int
  simp only [ne_eq, not_true_eq_false, ↓reduceIte, bind_def, pure_def, emit, Run.bind_done,
    Run.prepend_mk, List.append_nil]

/-- C8 (counterexample): a start command whose bind returns an error aborts
the process. -/
theorem bind_error_aborts :
    (dlnetreceive_int false codes_bind_fails scenario_object 1).status = .aborted := by
  decide

/-- C8 (amended): with assertions enabled, for every start command that gets
as far as `start_recv` (the event loop is initialised, already or by this
call) and whose address parse, bind or receive-start step returns a nonzero
code, the last effect is the report of the first failing step, with its name
and its own code, and the process is then aborted: no worker thread is
created, and after a failed parse or bind no receive is started. -/
theorem start_error_aborts (r : UvCodes) (x : t_dlnetreceive) (n : Int) (hn : n ≠ 0)
    (hloop : x.event_loop_ptr = .event_loop_struct ∨
      (x.event_loop_ptr = .null ∧ r.uv_loop_init = 0))
    (herr : r.uv_ip4_addr ≠ 0 ∨ r.uv_udp_bind ≠ 0 ∨ r.uv_udp_recv_start ≠ 0) :
    (dlnetreceive_int false r x n).status = .aborted ∧
    (dlnetreceive_int false r x n).trace.getLast? = some (.post "%s: [%s: %s]\n"
      (if r.uv_ip4_addr ≠ 0 then
        [.str "ip4_addr", .err_name r.uv_ip4_addr, .strerror r.uv_ip4_addr]
      else if r.uv_udp_bind ≠ 0 then
        [.str "udp bind", .err_name r.uv_udp_bind, .strerror r.uv_udp_bind]
      else
        [.str "recv start", .err_name r.uv_udp_recv_start, .strerror r.uv_udp_recv_start])) ∧
    Event.pthread_create ∉ (dlnetreceive_int false r x n).trace ∧
    (r.uv_ip4_addr ≠ 0 ∨ r.uv_udp_bind ≠ 0 →
      Event.uv_udp_recv_start ∉ (dlnetreceive_int false r x n).trace) := by
  have hint : dlnetreceive_int false r x n = sock_connect false r x := by
    unfold dlnetreceive_int
    simp only [hn, ne_eq, not_false_eq_true, ↓reduceIte]
  rw [hint, sock_connect_run, uv_event_loop_run]
  rcases hloop with h1 | ⟨h1, h2⟩
  · by_cases h3 : r.uv_ip4_addr = 0 <;> by_cases h4 : r.uv_udp_bind = 0 <;>
      by_cases h5 : r.uv_udp_recv_start = 0 <;>
      simp only [h3, h4, h5, ne_eq, not_true_eq_false, not_false_eq_true, or_self, or_false,
        false_or, or_true, true_or] at herr <;>
      simp only [start_recv_run, uv_udp_init, emit, h1, h3, h4, h5, ne_eq, reduceCtorEq,
        not_true_eq_false, not_false_eq_true, ↓reduceIte, Run.bind_done, Run.bind_aborted,
        Run.prepend_mk, List.nil_append, List.singleton_append, List.cons_append, true_and,
        or_self, or_false, false_or, or_true, true_or, false_implies, true_implies] <;>
      simp
  · by_cases h3 : r.uv_ip4_addr = 0 <;> by_cases h4 : r.uv_udp_bind = 0 <;>
      by_cases h5 : r.uv_udp_recv_start = 0 <;>
      simp only [h3, h4, h5, ne_eq, not_true_eq_false, not_false_eq_true, or_self, or_false,
        false_or, or_true, true_or] at herr <;>
      simp only [start_recv_run, uv_udp_init, emit, h1, h2, h3, h4, h5, ne_eq, reduceCtorEq,
        not_true_eq_false, not_false_eq_true, ↓reduceIte, Run.bind_done, Run.bind_aborted,
        Run.prepend_mk, List.nil_append, List.singleton_append, List.cons_append, true_and,
        or_self, or_false, false_or, or_true, true_or, false_implies, true_implies] <;>
      simp

/-- C8 (witness): the bind failing with code -98 on the scenario object, whose
loop this start initialises. -/
theorem start_error_aborts_witness :
    (dlnetreceive_int false codes_bind_fails scenario_object 1).status = .aborted ∧
    (dlnetreceive_int false codes_bind_fails scenario_object 1).trace.getLast?
      = some (.post "%s: [%s: %s]\n" [.str "udp bind", .err_name (-98), .strerror (-98)]) ∧
    Event.pthread_create ∉ (dlnetreceive_int false codes_bind_fails scenario_object 1).trace :=
  let h := start_error_aborts codes_bind_fails scenario_object 1 (by decide)
    (Or.inr ⟨by decide, by decide⟩) (Or.inr (Or.inl (by decide)))
  ⟨h.1, h.2.1, h.2.2.1⟩

/-- C9 (code at the failing input): called back with nread = 0 and a NULL
sender address, which is how libuv reports that there is nothing to read, the
callback logs twice and then hands the NULL address to `uv_ip4_name`: the
process faults and the scratch buffer is not released. -/
theorem recv_cb_null_sender_faults (x : t_dlnetreceive) (buf : uv_buf_t) (flags : Nat) :
    recv_cb x 0 buf none flags =
      ⟨[.post "Bytes read: %d" [.int 0], .post "%s" [.mem buf.base.addr]], .fault⟩ := by
  rw [recv_cb_run_null, if_neg (by decide)]

/-- C10 (code at the failing input): on the scenario object, whose buffer
holds four samples, a render call of four frames copies the buffer to output 0
when the scratch allocation succeeds; when `malloc` returns NULL the
unchecked `memcpy` into the scratch block faults and no output is written. -/
theorem render_unchecked_scratch_faults :
    (dlnetreceive_new host_cleared 3 scenario_argv).status = .done (some scenario_object) ∧
    (dlnetreceive_perform64 scenario_object [stale_vector, stale_vector] [stale_vector] 4
        scratch_addr).status
      = .done ⟨scenario_object, [stale_vector, stale_vector], [[0, 0, 0, 0]]⟩ ∧
    dlnetreceive_perform64 scenario_object [stale_vector, stale_vector] [stale_vector] 4 0
      = ⟨[.malloc 32, .memcpy 0 4096 32], .fault⟩ := by
  refine ⟨by decide, by decide, by decide⟩

end DlNetReceive
